import Mathlib

/-!
Verification of the PSCI frontend (`psci_cpu_on`, `psci_cpu_suspend`,
`psci_cpu_off`, `psci_affinity_info`, the migrate family, and
`psci_smc_handler`) and of the per-core dual-world context store
(`cm_get_context` / `cm_set_context`).

The frontend delegates the actual power transitions to the affinity-level
walks (`psci_afflvl_on` / `psci_afflvl_suspend` / `psci_afflvl_off`) and to
platform hooks (`get_max_afflvl`, `platform_get_core_pos`,
`psci_get_aff_map_node`, `read_mpidr`); those live outside the files given
here, so they are taken as abstract parameters of an environment record,
and every frontend function is instrumented to also return the list of
walk invocations it performed together with the threaded abstract state.
-/

/-- PSCI success return code (psci.h is not part of the given sources;
the error taxonomy values follow the PSCI return-code assignments). -/
def PSCI_E_SUCCESS : Int := 0

/-- PSCI "not supported" return code. -/
def PSCI_E_NOT_SUPPORTED : Int := -1

/-- PSCI "invalid parameters" return code. -/
def PSCI_E_INVALID_PARAMS : Int := -2

/-- PSCI "denied" return code. -/
def PSCI_E_DENIED : Int := -3

/-- PSCI "already on" return code. -/
def PSCI_E_ALREADY_ON : Int := -4

/-- Modelled from the spec: power-domain node state OFF
(the PSCI_STATE_* encodings of psci.h are not part of the given sources). -/
def PSCI_STATE_OFF : Nat := 0

/-- Modelled from the spec: power-domain node state ON_PENDING. -/
def PSCI_STATE_ON_PENDING : Nat := 1

/-- Modelled from the spec: power-domain node state SUSPEND. -/
def PSCI_STATE_SUSPEND : Nat := 2

/-- Modelled from the spec: power-domain node state ON. -/
def PSCI_STATE_ON : Nat := 3

/-- Modelled from the spec: the migrate-info-type response meaning
"no trusted OS present" (value per the PSCI MIGRATE_INFO_TYPE contract). -/
def PSCI_TOS_NOT_PRESENT : Nat := 2

/-- Affinity level 0: the individual core. -/
def MPIDR_AFFLVL0 : Nat := 0

/-- The architectural maximum affinity level handled by this code
(MPIDR_MAX_AFFLVL, from the arch header which is not part of the given
sources; the frontend supports levels 0, 1 and 2). -/
def MPIDR_MAX_AFFLVL : Nat := 2

/-- Modelled from the spec: decode the type field of a PSCI power_state
descriptor (`psci_get_pstate_type`, a header macro not part of the given
sources). Type 0 means "standby", nonzero means "power down"; the field
sits at bit 16 of the descriptor. -/
def psci_get_pstate_type (power_state : Nat) : Nat :=
  (power_state >>> 16) &&& 1

/-- Modelled from the spec: decode the target affinity level of a PSCI
power_state descriptor (`psci_get_pstate_afflvl`, a header macro not part
of the given sources). The two-bit field sits at bit 24. -/
def psci_get_pstate_afflvl (power_state : Nat) : Nat :=
  (power_state >>> 24) &&& 3

/-- Modelled from the spec: a Topology Map node (`aff_map_node` of
psci_private.h, not part of the given sources): a presence flag for
whether the hardware domain exists, and its power state. The C code packs
both into one byte (`node->state & PSCI_AFF_PRESENT` tests presence,
`psci_get_state(node)` extracts the state); here they are two fields. -/
structure aff_map_node where
  present : Bool
  state : Nat
deriving DecidableEq

/-- Modelled from the spec: `psci_get_state` reads a node's power state. -/
def psci_get_state (node : aff_map_node) : Nat := node.state

/-- One recorded invocation of an affinity-level walk, with the exact
arguments the frontend passed. -/
inductive WalkCall where
  | on (target_cpu entrypoint context_id start_afflvl end_afflvl : Nat)
  | suspend (mpidr entrypoint context_id power_state start_afflvl end_afflvl : Nat)
  | off (mpidr start_afflvl end_afflvl : Nat)
deriving DecidableEq

/-- The environment of the frontend: the platform hooks and the
affinity-level walks, none of which are part of the given sources.
`σ` is the abstract state (power-domain node states and anything else the
walks mutate); each walk returns its PSCI return code and the new state.
`mpidr` is the value `read_mpidr()` yields on the calling core. -/
structure Env (σ : Type) where
  maxAfflvl : Nat
  mpidr : Nat
  corePos : Nat → Nat
  affMap : Nat → Nat → Option aff_map_node
  afflvl_on : Nat → Nat → Nat → Nat → Nat → σ → Int × σ
  afflvl_suspend : Nat → Nat → Nat → Nat → Nat → Nat → σ → Int × σ
  afflvl_off : Nat → Nat → Nat → σ → Int × σ

/-- Modelled from the spec: `psci_validate_mpidr` (psci_common.c, not part
of the given sources) — success exactly when the identifier maps to an
existing, present node at the requested level, INVALID_PARAMS otherwise. -/
def psci_validate_mpidr {σ : Type} (p : Env σ) (mpidr level : Nat) : Int :=
  match p.affMap mpidr level with
  | some node => if node.present then PSCI_E_SUCCESS else PSCI_E_INVALID_PARAMS
  | none => PSCI_E_INVALID_PARAMS

/-- `psci_cpu_on`: validate the target core, then walk levels 0 up to
`get_max_afflvl()` turning them on. Returns the PSCI code, the state after
any walk, and the walk invocations performed. -/
def psci_cpu_on {σ : Type} (p : Env σ) (target_cpu entrypoint context_id : Nat)
    (s : σ) : Int × σ × List WalkCall :=
  let rc := psci_validate_mpidr p target_cpu MPIDR_AFFLVL0
  if rc ≠ PSCI_E_SUCCESS then
    (rc, s, [])
  else
    let start_afflvl := MPIDR_AFFLVL0
    let end_afflvl := p.maxAfflvl
    let r := p.afflvl_on target_cpu entrypoint context_id start_afflvl end_afflvl s
    (r.1, r.2, [WalkCall.on target_cpu entrypoint context_id start_afflvl end_afflvl])

/-- `psci_version`: the fixed (major, minor) version word
(PSCI_MAJOR_VER | PSCI_MINOR_VER; the header values are not part of the
given sources, the encoding is major in the high half-word). -/
def psci_version : Nat := (0 <<< 16) ||| 2

/-- `psci_cpu_suspend`: reject standby-type descriptors and target levels
above MPIDR_MAX_AFFLVL, otherwise walk levels 0 up to the decoded target
level suspending them. -/
def psci_cpu_suspend {σ : Type} (p : Env σ) (power_state entrypoint context_id : Nat)
    (s : σ) : Int × σ × List WalkCall :=
  let pstate_type := psci_get_pstate_type power_state
  if pstate_type = 0 then
    (PSCI_E_INVALID_PARAMS, s, [])
  else
    let target_afflvl := psci_get_pstate_afflvl power_state
    if target_afflvl > MPIDR_MAX_AFFLVL then
      (PSCI_E_INVALID_PARAMS, s, [])
    else
      let mpidr := p.mpidr
      let r := p.afflvl_suspend mpidr entrypoint context_id power_state
        MPIDR_AFFLVL0 target_afflvl s
      (r.1, r.2,
        [WalkCall.suspend mpidr entrypoint context_id power_state
          MPIDR_AFFLVL0 target_afflvl])

/-- `psci_cpu_off`: walk from level 0 up to `get_max_afflvl()` powering
the calling core's domains off. -/
def psci_cpu_off {σ : Type} (p : Env σ) (s : σ) : Int × σ × List WalkCall :=
  let target_afflvl := p.maxAfflvl
  let mpidr := p.mpidr
  let r := p.afflvl_off mpidr MPIDR_AFFLVL0 target_afflvl s
  (r.1, r.2, [WalkCall.off mpidr MPIDR_AFFLVL0 target_afflvl])

/-- `psci_affinity_info`: INVALID_PARAMS when the requested level exceeds
the platform maximum or no present node exists there; otherwise the node's
state with SUSPEND remapped to ON. -/
def psci_affinity_info {σ : Type} (p : Env σ)
    (target_affinity lowest_affinity_level : Nat) : Int :=
  if lowest_affinity_level > p.maxAfflvl then
    PSCI_E_INVALID_PARAMS
  else
    match p.affMap target_affinity lowest_affinity_level with
    | some node =>
      if node.present then
        let aff_state := psci_get_state node
        let aff_state := if aff_state = PSCI_STATE_SUSPEND then PSCI_STATE_ON else aff_state
        (aff_state : Int)
      else
        PSCI_E_INVALID_PARAMS
    | none => PSCI_E_INVALID_PARAMS

/-- `psci_migrate`: fixed NOT_SUPPORTED response. -/
def psci_migrate (_target_cpu : Nat) : Int := PSCI_E_NOT_SUPPORTED

/-- `psci_migrate_info_type`: fixed "no trusted OS present" response. -/
def psci_migrate_info_type : Nat := PSCI_TOS_NOT_PRESENT

/-- `psci_migrate_info_up_cpu`: fixed response, documented to match
`psci_migrate_info_type` — the value is PSCI_E_SUCCESS converted to the
function's unsigned return type. -/
def psci_migrate_info_up_cpu : Nat := (PSCI_E_SUCCESS.emod (2 ^ 64)).toNat

/-- The C `uint64_t` conversion of a signed `int` result (`rc` in the
handler is a `uint64_t`): reduce modulo 2^64, mapping negatives to the
high end of the range. -/
def u64_of_int (i : Int) : Nat := (i.emod (2 ^ 64)).toNat

/-- Modelled from the spec: the distinguished "unknown function" response
(SMC_UNK of runtime_svc.h, not part of the given sources), the usual -1. -/
def SMC_UNK : Int := -1

/-- Modelled from the spec: the PSCI SMC function identifiers (psci.h is
not part of the given sources; values follow the PSCI function-identifier
assignments — only their distinctness matters here). -/
def PSCI_VERSION : Nat := 0x84000000

/-- AArch32 function id of CPU_SUSPEND. -/
def PSCI_CPU_SUSPEND_AARCH32 : Nat := 0x84000001

/-- AArch64 function id of CPU_SUSPEND. -/
def PSCI_CPU_SUSPEND_AARCH64 : Nat := 0xc4000001

/-- Function id of CPU_OFF. -/
def PSCI_CPU_OFF : Nat := 0x84000002

/-- AArch32 function id of CPU_ON. -/
def PSCI_CPU_ON_AARCH32 : Nat := 0x84000003

/-- AArch64 function id of CPU_ON. -/
def PSCI_CPU_ON_AARCH64 : Nat := 0xc4000003

/-- AArch32 function id of AFFINITY_INFO. -/
def PSCI_AFFINITY_INFO_AARCH32 : Nat := 0x84000004

/-- AArch64 function id of AFFINITY_INFO. -/
def PSCI_AFFINITY_INFO_AARCH64 : Nat := 0xc4000004

/-- AArch32 function id of MIGRATE. -/
def PSCI_MIG_AARCH32 : Nat := 0x84000005

/-- AArch64 function id of MIGRATE. -/
def PSCI_MIG_AARCH64 : Nat := 0xc4000005

/-- Function id of MIGRATE_INFO_TYPE. -/
def PSCI_MIG_INFO_TYPE : Nat := 0x84000006

/-- AArch32 function id of MIGRATE_INFO_UP_CPU. -/
def PSCI_MIG_INFO_UP_CPU_AARCH32 : Nat := 0x84000007

/-- AArch64 function id of MIGRATE_INFO_UP_CPU. -/
def PSCI_MIG_INFO_UP_CPU_AARCH64 : Nat := 0xc4000007

/-- Function id of SYSTEM_OFF. -/
def PSCI_SYSTEM_OFF : Nat := 0x84000008

/-- Function id of SYSTEM_RESET. -/
def PSCI_SYSTEM_RESET : Nat := 0x84000009

/-- The function identifiers the handler's switch recognizes. -/
def psci_documented_fids : List Nat :=
  [PSCI_VERSION,
   PSCI_CPU_OFF,
   PSCI_CPU_SUSPEND_AARCH64, PSCI_CPU_SUSPEND_AARCH32,
   PSCI_CPU_ON_AARCH64, PSCI_CPU_ON_AARCH32,
   PSCI_AFFINITY_INFO_AARCH32, PSCI_AFFINITY_INFO_AARCH64,
   PSCI_MIG_AARCH32, PSCI_MIG_AARCH64,
   PSCI_MIG_INFO_TYPE,
   PSCI_MIG_INFO_UP_CPU_AARCH32, PSCI_MIG_INFO_UP_CPU_AARCH64,
   PSCI_SYSTEM_OFF, PSCI_SYSTEM_RESET]

/-- Modelled from the spec: the front-end adapter `__psci_cpu_off` (an
entry shim outside the given sources) maps core-off onto `psci_cpu_off`. -/
def psci_cpu_off_sh {σ : Type} (p : Env σ) (s : σ) : Int × σ × List WalkCall :=
  psci_cpu_off p s

/-- Modelled from the spec: the front-end adapter `__psci_cpu_suspend`
maps core-suspend onto `psci_cpu_suspend`; the first argument reaches the
`unsigned int power_state` parameter, hence is truncated to 32 bits. -/
def psci_cpu_suspend_sh {σ : Type} (p : Env σ) (x1 x2 x3 : Nat) (s : σ) :
    Int × σ × List WalkCall :=
  psci_cpu_suspend p (x1 % 2 ^ 32) x2 x3 s

/-- `psci_smc_handler`: the top-level switch on the SMC function id.
The result is `none` on the SYSTEM_OFF / SYSTEM_RESET paths (which end in
a fatal assertion and never return) and `some rc` otherwise, where `rc`
is the `uint64_t` value placed in the return register; the state and the
walk-invocation trace of the dispatched operation are passed through. -/
def psci_smc_handler {σ : Type} (p : Env σ) (smc_fid x1 x2 x3 : Nat) (s : σ) :
    Option Nat × σ × List WalkCall :=
  if smc_fid = PSCI_VERSION then
    (some (u64_of_int psci_version), s, [])
  else if smc_fid = PSCI_CPU_OFF then
    let r := psci_cpu_off_sh p s
    (some (u64_of_int r.1), r.2.1, r.2.2)
  else if smc_fid = PSCI_CPU_SUSPEND_AARCH64 ∨ smc_fid = PSCI_CPU_SUSPEND_AARCH32 then
    let r := psci_cpu_suspend_sh p x1 x2 x3 s
    (some (u64_of_int r.1), r.2.1, r.2.2)
  else if smc_fid = PSCI_CPU_ON_AARCH64 ∨ smc_fid = PSCI_CPU_ON_AARCH32 then
    let r := psci_cpu_on p x1 x2 x3 s
    (some (u64_of_int r.1), r.2.1, r.2.2)
  else if smc_fid = PSCI_AFFINITY_INFO_AARCH32 ∨ smc_fid = PSCI_AFFINITY_INFO_AARCH64 then
    (some (u64_of_int (psci_affinity_info p x1 (x2 % 2 ^ 32))), s, [])
  else if smc_fid = PSCI_MIG_AARCH32 ∨ smc_fid = PSCI_MIG_AARCH64 then
    (some (u64_of_int (psci_migrate (x1 % 2 ^ 32))), s, [])
  else if smc_fid = PSCI_MIG_INFO_TYPE then
    (some (u64_of_int psci_migrate_info_type), s, [])
  else if smc_fid = PSCI_MIG_INFO_UP_CPU_AARCH32 ∨ smc_fid = PSCI_MIG_INFO_UP_CPU_AARCH64 then
    (some psci_migrate_info_up_cpu, s, [])
  else if smc_fid = PSCI_SYSTEM_OFF then
    (none, s, [])
  else if smc_fid = PSCI_SYSTEM_RESET then
    (none, s, [])
  else
    (some (u64_of_int SMC_UNK), s, [])

/-!
The per-core dual-world context store (`cm_context_info`): one pair of
slots per linear core index, one slot per security world (0 = secure,
1 = non-secure), each slot holding either NULL or the pointer to a
register-snapshot block. Pointers are modelled as naturals; a slot is an
`Option Nat` with `none` for NULL.
-/

/-- The context-store array `cm_context_info[PLATFORM_CORE_COUNT]`, as a
map from linear core index and security state to the stored pointer. -/
structure ContextStore where
  ptr : Nat → Nat → Option Nat

/-- The BSS-zeroed initial state of `cm_context_info` (all slots NULL),
which is what `cm_init` leaves in place. -/
def cm_init_context_info : ContextStore := ⟨fun _ _ => none⟩

/-- `cm_get_context`: read the slot of `platform_get_core_pos(mpidr)` for
the given security state. -/
def cm_get_context {σ : Type} (p : Env σ) (st : ContextStore)
    (mpidr security_state : Nat) : Option Nat :=
  st.ptr (p.corePos mpidr) security_state

/-- `cm_set_context`: write the slot of `platform_get_core_pos(mpidr)` for
the given security state, leaving every other slot as it was. -/
def cm_set_context {σ : Type} (p : Env σ) (st : ContextStore)
    (mpidr : Nat) (context : Option Nat) (security_state : Nat) : ContextStore :=
  ⟨fun i w =>
    if i = p.corePos mpidr ∧ w = security_state then context else st.ptr i w⟩

/-- Run a sequence of `cm_set_context` operations, each given as
(mpidr, context, security_state) in the C argument order. -/
def cm_run_sets {σ : Type} (p : Env σ) (st : ContextStore)
    (ops : List (Nat × Option Nat × Nat)) : ContextStore :=
  ops.foldl (fun acc o => cm_set_context p acc o.1 o.2.1 o.2.2) st

/-- A concrete single-cluster environment used to exercise the
definitions: two present cores 0 and 1 under one cluster, platform
maximum affinity level 1, identity core indexing, and walks that always
succeed without touching the (numeric) abstract state. -/
def envA : Env Nat where
  maxAfflvl := 1
  mpidr := 0
  corePos := fun m => m
  affMap := fun m l =>
    if (m = 0 ∨ m = 1) ∧ l = 0 then some ⟨true, PSCI_STATE_ON⟩
    else if m = 0 ∧ l = 1 then some ⟨true, PSCI_STATE_ON⟩
    else none
  afflvl_on := fun _ _ _ _ _ s => (PSCI_E_SUCCESS, s)
  afflvl_suspend := fun _ _ _ _ _ _ s => (PSCI_E_SUCCESS, s)
  afflvl_off := fun _ _ _ s => (PSCI_E_SUCCESS, s)

/-- C1: when the target identifier's level-0 component does not map to an
existing, present core in the Topology Map, `psci_cpu_on` returns
INVALID_PARAMS, performs no affinity-level walk, and leaves the state
untouched. -/
theorem psci_cpu_on_invalid_target_no_walk {σ : Type} (p : Env σ)
    (target_cpu entrypoint context_id : Nat) (s : σ)
    (h : ∀ node, p.affMap target_cpu MPIDR_AFFLVL0 = some node → node.present = false) :
    psci_cpu_on p target_cpu entrypoint context_id s = (PSCI_E_INVALID_PARAMS, s, []) := by
  unfold psci_cpu_on psci_validate_mpidr
  cases hm : p.affMap target_cpu MPIDR_AFFLVL0 with
  | none => simp [PSCI_E_SUCCESS, PSCI_E_INVALID_PARAMS]
  | some node =>
    have hp := h node hm
    simp [hp, PSCI_E_SUCCESS, PSCI_E_INVALID_PARAMS]

/-- C1 witness: in the concrete two-core environment, identifier 7 names
no core, and `psci_cpu_on` rejects it without a walk. -/
theorem psci_cpu_on_invalid_target_no_walk_witness :
    (∀ node, envA.affMap 7 MPIDR_AFFLVL0 = some node → node.present = false) ∧
    psci_cpu_on envA 7 0x1000 0 0 = (PSCI_E_INVALID_PARAMS, 0, []) := by
  have h : ∀ node, envA.affMap 7 MPIDR_AFFLVL0 = some node → node.present = false := by
    intro node hn
    simp [envA, MPIDR_AFFLVL0] at hn
  exact ⟨h, psci_cpu_on_invalid_target_no_walk envA 7 0x1000 0 0 h⟩

/-- C2: a power_state descriptor whose type field decodes to standby
(value 0) makes `psci_cpu_suspend` return INVALID_PARAMS for every
entrypoint and context_id, with no walk and no state change. -/
theorem psci_cpu_suspend_standby_rejected {σ : Type} (p : Env σ)
    (power_state entrypoint context_id : Nat) (s : σ)
    (h : psci_get_pstate_type power_state = 0) :
    psci_cpu_suspend p power_state entrypoint context_id s = (PSCI_E_INVALID_PARAMS, s, []) := by
  unfold psci_cpu_suspend
  simp [h]

/-- C2 witness: descriptor 0x00000007 has type field 0 and is rejected
without a walk. -/
theorem psci_cpu_suspend_standby_rejected_witness :
    psci_get_pstate_type 0x00000007 = 0 ∧
    psci_cpu_suspend envA 0x00000007 0x2000 5 0 = (PSCI_E_INVALID_PARAMS, 0, []) :=
  ⟨by decide, psci_cpu_suspend_standby_rejected envA 0x00000007 0x2000 5 0 (by decide)⟩

/-- C3 counterexample: the claim compares the decoded target level against
the platform's maximum topology level, but the code compares against the
architectural constant MPIDR_MAX_AFFLVL. In the concrete environment the
platform maximum is 1 while descriptor 0x02010000 decodes to power-down
type and target level 2: the level exceeds the platform maximum, yet
`psci_cpu_suspend` does not return INVALID_PARAMS and does invoke the
affinity-level walk. -/
theorem psci_cpu_suspend_platform_max_counterexample :
    psci_get_pstate_afflvl 0x02010000 > envA.maxAfflvl ∧
    (psci_cpu_suspend envA 0x02010000 0x1000 0 0).1 ≠ PSCI_E_INVALID_PARAMS ∧
    (psci_cpu_suspend envA 0x02010000 0x1000 0 0).2.2 ≠ ([] : List WalkCall) := by
  decide

/-- C3 amended: for every power_state whose decoded target affinity level
exceeds MPIDR_MAX_AFFLVL — the architectural maximum level, the constant
the code actually checks — `psci_cpu_suspend` returns INVALID_PARAMS
without invoking the affinity-level walk and without mutating state. -/
theorem psci_cpu_suspend_arch_max_rejected {σ : Type} (p : Env σ)
    (power_state entrypoint context_id : Nat) (s : σ)
    (h : psci_get_pstate_afflvl power_state > MPIDR_MAX_AFFLVL) :
    psci_cpu_suspend p power_state entrypoint context_id s = (PSCI_E_INVALID_PARAMS, s, []) := by
  unfold psci_cpu_suspend
  by_cases ht : psci_get_pstate_type power_state = 0 <;> simp [ht, h]

/-- C3 amended witness: descriptor 0x03010000 decodes to power-down type
and target level 3 > MPIDR_MAX_AFFLVL, and is rejected without a walk. -/
theorem psci_cpu_suspend_arch_max_rejected_witness :
    psci_get_pstate_afflvl 0x03010000 > MPIDR_MAX_AFFLVL ∧
    psci_cpu_suspend envA 0x03010000 0x1000 0 0 = (PSCI_E_INVALID_PARAMS, 0, []) :=
  ⟨by decide, psci_cpu_suspend_arch_max_rejected envA 0x03010000 0x1000 0 0 (by decide)⟩

/-- C4: if the affinity-level suspend walk only ever returns SUCCESS or
INVALID_PARAMS, then `psci_cpu_suspend` only ever returns SUCCESS or
INVALID_PARAMS — the assertion at its exit never fires. -/
theorem psci_cpu_suspend_success_or_invalid {σ : Type} (p : Env σ)
    (hwalk : ∀ m e c ps lo hi s, (p.afflvl_suspend m e c ps lo hi s).1 = PSCI_E_SUCCESS ∨
      (p.afflvl_suspend m e c ps lo hi s).1 = PSCI_E_INVALID_PARAMS)
    (power_state entrypoint context_id : Nat) (s : σ) :
    (psci_cpu_suspend p power_state entrypoint context_id s).1 = PSCI_E_SUCCESS ∨
    (psci_cpu_suspend p power_state entrypoint context_id s).1 = PSCI_E_INVALID_PARAMS := by
  unfold psci_cpu_suspend
  by_cases ht : psci_get_pstate_type power_state = 0
  · simp [ht]
  · by_cases ha : psci_get_pstate_afflvl power_state > MPIDR_MAX_AFFLVL
    · simp [ht, ha]
    · simpa [ht, ha] using
        hwalk p.mpidr entrypoint context_id power_state MPIDR_AFFLVL0
          (psci_get_pstate_afflvl power_state) s

/-- C4 witness: with the always-successful walk of the concrete
environment, a power-down suspend to level 1 returns SUCCESS. -/
theorem psci_cpu_suspend_success_or_invalid_witness :
    (psci_cpu_suspend envA 0x01010000 0x1000 0 0).1 = PSCI_E_SUCCESS ∨
    (psci_cpu_suspend envA 0x01010000 0x1000 0 0).1 = PSCI_E_INVALID_PARAMS :=
  psci_cpu_suspend_success_or_invalid envA
    (fun _ _ _ _ _ _ _ => Or.inl rfl) 0x01010000 0x1000 0 0

/-- C5: if the affinity-level off walk only ever returns SUCCESS or
DENIED, then `psci_cpu_off` only ever returns SUCCESS or DENIED — the
assertion after the walk never fires. -/
theorem psci_cpu_off_success_or_denied {σ : Type} (p : Env σ)
    (hwalk : ∀ m lo hi s, (p.afflvl_off m lo hi s).1 = PSCI_E_SUCCESS ∨
      (p.afflvl_off m lo hi s).1 = PSCI_E_DENIED)
    (s : σ) :
    (psci_cpu_off p s).1 = PSCI_E_SUCCESS ∨ (psci_cpu_off p s).1 = PSCI_E_DENIED := by
  unfold psci_cpu_off
  simpa using hwalk p.mpidr MPIDR_AFFLVL0 p.maxAfflvl s

/-- C5 witness: with the always-successful off walk of the concrete
environment, `psci_cpu_off` returns SUCCESS. -/
theorem psci_cpu_off_success_or_denied_witness :
    (psci_cpu_off envA 0).1 = PSCI_E_SUCCESS ∨ (psci_cpu_off envA 0).1 = PSCI_E_DENIED :=
  psci_cpu_off_success_or_denied envA (fun _ _ _ _ => Or.inl rfl) 0

/-- C6: `psci_affinity_info` returns INVALID_PARAMS when the requested
level exceeds the platform maximum, when no node exists there, or when
the node is not present; for a present node it returns the node's state
with SUSPEND remapped to ON (ON_PENDING passes through unchanged); and
SUSPEND is never an observable result. -/
theorem psci_affinity_info_spec {σ : Type} (p : Env σ)
    (target_affinity lowest_affinity_level : Nat) :
    (lowest_affinity_level > p.maxAfflvl →
      psci_affinity_info p target_affinity lowest_affinity_level = PSCI_E_INVALID_PARAMS) ∧
    (p.affMap target_affinity lowest_affinity_level = none →
      psci_affinity_info p target_affinity lowest_affinity_level = PSCI_E_INVALID_PARAMS) ∧
    (∀ node, p.affMap target_affinity lowest_affinity_level = some node →
      node.present = false →
      psci_affinity_info p target_affinity lowest_affinity_level = PSCI_E_INVALID_PARAMS) ∧
    (∀ node, lowest_affinity_level ≤ p.maxAfflvl →
      p.affMap target_affinity lowest_affinity_level = some node →
      node.present = true →
      psci_affinity_info p target_affinity lowest_affinity_level =
        ((if psci_get_state node = PSCI_STATE_SUSPEND then PSCI_STATE_ON
          else psci_get_state node : Nat) : Int)) ∧
    psci_affinity_info p target_affinity lowest_affinity_level ≠
      ((PSCI_STATE_SUSPEND : Nat) : Int) := by
  refine ⟨?_, ?_, ?_, ?_, ?_⟩
  · intro hl
    simp [psci_affinity_info, hl]
  · intro hm
    unfold psci_affinity_info
    by_cases hl : lowest_affinity_level > p.maxAfflvl <;> simp [hl, hm]
  · intro node hm hp
    unfold psci_affinity_info
    by_cases hl : lowest_affinity_level > p.maxAfflvl <;> simp [hl, hm, hp]
  · intro node hle hm hp
    have hl : ¬lowest_affinity_level > p.maxAfflvl := by omega
    simp [psci_affinity_info, hl, hm, hp]
  · unfold psci_affinity_info
    by_cases hl : lowest_affinity_level > p.maxAfflvl
    · simp [hl, PSCI_E_INVALID_PARAMS, PSCI_STATE_SUSPEND]
    · cases hm : p.affMap target_affinity lowest_affinity_level with
      | none => simp [hl, hm, PSCI_E_INVALID_PARAMS, PSCI_STATE_SUSPEND]
      | some node =>
        by_cases hp : node.present
        · simp only [hl, hm, hp, if_false, if_true, ite_true]
          by_cases hs : psci_get_state node = PSCI_STATE_SUSPEND
          · simp [hs, PSCI_STATE_ON, PSCI_STATE_SUSPEND]
          · simp only [hs, if_neg, ite_false]
            simp only [PSCI_STATE_SUSPEND] at hs ⊢
            exact_mod_cast hs
        · simp [hl, hm, hp, PSCI_E_INVALID_PARAMS, PSCI_STATE_SUSPEND]

/-- C6 witness: in the concrete environment, querying level 2 — above the
platform maximum 1 — returns INVALID_PARAMS. -/
theorem psci_affinity_info_spec_witness :
    (2 > envA.maxAfflvl) ∧ psci_affinity_info envA 0 2 = PSCI_E_INVALID_PARAMS :=
  ⟨by decide, (psci_affinity_info_spec envA 0 2).1 (by decide)⟩

/-- Auxiliary for the context store: a sequence of `cm_set_context`
operations none of which targets the queried (core, world) pair leaves
what `cm_get_context` sees for that pair unchanged, given the dense
(injective) platform core-index mapping. -/
theorem cm_run_sets_avoid {σ : Type} (p : Env σ) (mpidr w : Nat)
    (hinj : Function.Injective p.corePos) :
    ∀ (ops : List (Nat × Option Nat × Nat)) (st : ContextStore),
      (∀ o ∈ ops, ¬(o.1 = mpidr ∧ o.2.2 = w)) →
      cm_get_context p (cm_run_sets p st ops) mpidr w = cm_get_context p st mpidr w := by
  intro ops
  induction ops with
  | nil => intro st _; rfl
  | cons o rest ih =>
    intro st hops
    have hcond : ¬(p.corePos mpidr = p.corePos o.1 ∧ w = o.2.2) := by
      rintro ⟨h1, h2⟩
      exact hops o (List.mem_cons_self o rest) ⟨(hinj h1).symm, h2.symm⟩
    have hrest : ∀ o' ∈ rest, ¬(o'.1 = mpidr ∧ o'.2.2 = w) :=
      fun o' ho' => hops o' (List.mem_cons_of_mem _ ho')
    show cm_get_context p (cm_run_sets p (cm_set_context p st o.1 o.2.1 o.2.2) rest) mpidr w = _
    rw [ih (cm_set_context p st o.1 o.2.1 o.2.2) hrest]
    simp [cm_get_context, cm_set_context, hcond]

/-- C7: context-store round trip — reading a (core, world) slot that no
`cm_set_context` in the history ever targeted yields NULL, and reading
right after `cm_set_context(core, ref, world)` yields exactly `ref`;
the platform core-index mapping is assumed dense (injective). -/
theorem cm_context_roundtrip {σ : Type} (p : Env σ) (mpidr security_state : Nat)
    (ref : Nat) (st : ContextStore) (hinj : Function.Injective p.corePos) :
    (∀ ops : List (Nat × Option Nat × Nat),
      (∀ o ∈ ops, ¬(o.1 = mpidr ∧ o.2.2 = security_state)) →
      cm_get_context p (cm_run_sets p cm_init_context_info ops) mpidr security_state = none) ∧
    cm_get_context p (cm_set_context p st mpidr (some ref) security_state)
      mpidr security_state = some ref := by
  constructor
  · intro ops hops
    rw [cm_run_sets_avoid p mpidr security_state hinj ops cm_init_context_info hops]
    rfl
  · simp [cm_get_context, cm_set_context]

/-- C7 witness: on the concrete environment, after sets for core 1 world 1
and core 0 world 0, the slot of core 0 world 1 is still NULL; and after
setting it to 0x9000 it reads back 0x9000. -/
theorem cm_context_roundtrip_witness :
    cm_get_context envA
      (cm_run_sets envA cm_init_context_info [(1, some 5, 1), (0, some 6, 0)]) 0 1 = none ∧
    cm_get_context envA
      (cm_set_context envA cm_init_context_info 0 (some 0x9000) 1) 0 1 = some 0x9000 :=
  ⟨(cm_context_roundtrip envA 0 1 0x9000 cm_init_context_info (fun _ _ h => h)).1
      [(1, some 5, 1), (0, some 6, 0)] (by decide),
   (cm_context_roundtrip envA 0 1 0x9000 cm_init_context_info (fun _ _ h => h)).2⟩

/-- C8: context-store frame — `cm_set_context` on core A's slot for world
W leaves every other (core, world) slot reading the same value, assuming
the platform core-index mapping is injective. -/
theorem cm_set_context_frame {σ : Type} (p : Env σ) (st : ContextStore)
    (a wA b wB : Nat) (ref : Option Nat)
    (hinj : Function.Injective p.corePos) (hne : ¬(b = a ∧ wB = wA)) :
    cm_get_context p (cm_set_context p st a ref wA) b wB = cm_get_context p st b wB := by
  have hcond : ¬(p.corePos b = p.corePos a ∧ wB = wA) := by
    rintro ⟨h1, h2⟩
    exact hne ⟨hinj h1, h2⟩
  simp [cm_get_context, cm_set_context, hcond]

/-- C8 witness: setting core 0's non-secure slot does not change what
core 1's non-secure slot reads. -/
theorem cm_set_context_frame_witness :
    cm_get_context envA (cm_set_context envA cm_init_context_info 0 (some 3) 1) 1 1 =
      cm_get_context envA cm_init_context_info 1 1 :=
  cm_set_context_frame envA cm_init_context_info 0 1 1 1 (some 3)
    (fun _ _ h => h) (by decide)

/-- C9: the migrate family returns fixed sentinel responses —
`psci_migrate` always NOT_SUPPORTED, `psci_migrate_info_type` always
the no-trusted-OS value, `psci_migrate_info_up_cpu` its fixed result
(PSCI_E_SUCCESS in the unsigned return type) — and the handler paths that
dispatch them leave the state untouched and perform no walk. -/
theorem psci_migrate_family_fixed {σ : Type} (p : Env σ)
    (target_cpu x1 x2 x3 : Nat) (s : σ) :
    psci_migrate target_cpu = PSCI_E_NOT_SUPPORTED ∧
    psci_migrate_info_type = PSCI_TOS_NOT_PRESENT ∧
    psci_migrate_info_up_cpu = u64_of_int PSCI_E_SUCCESS ∧
    psci_smc_handler p PSCI_MIG_AARCH32 x1 x2 x3 s =
      (some (u64_of_int PSCI_E_NOT_SUPPORTED), s, []) ∧
    psci_smc_handler p PSCI_MIG_AARCH64 x1 x2 x3 s =
      (some (u64_of_int PSCI_E_NOT_SUPPORTED), s, []) ∧
    psci_smc_handler p PSCI_MIG_INFO_TYPE x1 x2 x3 s =
      (some (u64_of_int (psci_migrate_info_type : Int)), s, []) ∧
    psci_smc_handler p PSCI_MIG_INFO_UP_CPU_AARCH32 x1 x2 x3 s =
      (some psci_migrate_info_up_cpu, s, []) ∧
    psci_smc_handler p PSCI_MIG_INFO_UP_CPU_AARCH64 x1 x2 x3 s =
      (some psci_migrate_info_up_cpu, s, []) := by
  refine ⟨rfl, rfl, rfl, ?_, ?_, ?_, ?_, ?_⟩ <;>
    simp [psci_smc_handler, psci_migrate,
      PSCI_VERSION, PSCI_CPU_OFF, PSCI_CPU_SUSPEND_AARCH64, PSCI_CPU_SUSPEND_AARCH32,
      PSCI_CPU_ON_AARCH64, PSCI_CPU_ON_AARCH32,
      PSCI_AFFINITY_INFO_AARCH32, PSCI_AFFINITY_INFO_AARCH64,
      PSCI_MIG_AARCH32, PSCI_MIG_AARCH64, PSCI_MIG_INFO_TYPE,
      PSCI_MIG_INFO_UP_CPU_AARCH32, PSCI_MIG_INFO_UP_CPU_AARCH64]

/-- C10: the AArch32 and AArch64 function ids of the same operation are
handled identically by `psci_smc_handler` for every argument tuple and
state (CPU_SUSPEND, CPU_ON, AFFINITY_INFO, MIGRATE, MIGRATE_INFO_UP_CPU
pairs), and any function id outside the documented set yields the
distinguished unknown-function code with no state change and no walk. -/
theorem psci_smc_handler_aarch32_aarch64_equiv {σ : Type} (p : Env σ)
    (smc_fid x1 x2 x3 : Nat) (s : σ) :
    (psci_smc_handler p PSCI_CPU_SUSPEND_AARCH32 x1 x2 x3 s =
      psci_smc_handler p PSCI_CPU_SUSPEND_AARCH64 x1 x2 x3 s) ∧
    (psci_smc_handler p PSCI_CPU_ON_AARCH32 x1 x2 x3 s =
      psci_smc_handler p PSCI_CPU_ON_AARCH64 x1 x2 x3 s) ∧
    (psci_smc_handler p PSCI_AFFINITY_INFO_AARCH32 x1 x2 x3 s =
      psci_smc_handler p PSCI_AFFINITY_INFO_AARCH64 x1 x2 x3 s) ∧
    (psci_smc_handler p PSCI_MIG_AARCH32 x1 x2 x3 s =
      psci_smc_handler p PSCI_MIG_AARCH64 x1 x2 x3 s) ∧
    (psci_smc_handler p PSCI_MIG_INFO_UP_CPU_AARCH32 x1 x2 x3 s =
      psci_smc_handler p PSCI_MIG_INFO_UP_CPU_AARCH64 x1 x2 x3 s) ∧
    (smc_fid ∉ psci_documented_fids →
      psci_smc_handler p smc_fid x1 x2 x3 s = (some (u64_of_int SMC_UNK), s, [])) := by
  refine ⟨?_, ?_, ?_, ?_, ?_, ?_⟩
  · simp [psci_smc_handler,
      PSCI_VERSION, PSCI_CPU_OFF, PSCI_CPU_SUSPEND_AARCH64, PSCI_CPU_SUSPEND_AARCH32]
  · simp [psci_smc_handler,
      PSCI_VERSION, PSCI_CPU_OFF, PSCI_CPU_SUSPEND_AARCH64, PSCI_CPU_SUSPEND_AARCH32,
      PSCI_CPU_ON_AARCH64, PSCI_CPU_ON_AARCH32]
  · simp [psci_smc_handler,
      PSCI_VERSION, PSCI_CPU_OFF, PSCI_CPU_SUSPEND_AARCH64, PSCI_CPU_SUSPEND_AARCH32,
      PSCI_CPU_ON_AARCH64, PSCI_CPU_ON_AARCH32,
      PSCI_AFFINITY_INFO_AARCH32, PSCI_AFFINITY_INFO_AARCH64]
  · simp [psci_smc_handler,
      PSCI_VERSION, PSCI_CPU_OFF, PSCI_CPU_SUSPEND_AARCH64, PSCI_CPU_SUSPEND_AARCH32,
      PSCI_CPU_ON_AARCH64, PSCI_CPU_ON_AARCH32,
      PSCI_AFFINITY_INFO_AARCH32, PSCI_AFFINITY_INFO_AARCH64,
      PSCI_MIG_AARCH32, PSCI_MIG_AARCH64]
  · simp [psci_smc_handler,
      PSCI_VERSION, PSCI_CPU_OFF, PSCI_CPU_SUSPEND_AARCH64, PSCI_CPU_SUSPEND_AARCH32,
      PSCI_CPU_ON_AARCH64, PSCI_CPU_ON_AARCH32,
      PSCI_AFFINITY_INFO_AARCH32, PSCI_AFFINITY_INFO_AARCH64,
      PSCI_MIG_AARCH32, PSCI_MIG_AARCH64, PSCI_MIG_INFO_TYPE,
      PSCI_MIG_INFO_UP_CPU_AARCH32, PSCI_MIG_INFO_UP_CPU_AARCH64]
  · intro h
    simp only [psci_documented_fids, List.mem_cons, List.not_mem_nil, or_false,
      not_or] at h
    obtain ⟨h1, h2, h3, h4, h5, h6, h7, h8, h9, h10, h11, h12, h13, h14, h15⟩ := h
    simp [psci_smc_handler, h1, h2, h3, h4, h5, h6, h7, h8, h9, h10, h11, h12, h13,
      h14, h15]

/-- C10 witness: the undocumented function id 0x84000042 yields the
unknown-function code, unchanged state and no walk. -/
theorem psci_smc_handler_aarch32_aarch64_equiv_witness :
    (0x84000042 ∉ psci_documented_fids) ∧
    psci_smc_handler envA 0x84000042 1 2 3 0 = (some (u64_of_int SMC_UNK), 0, []) :=
  ⟨by decide,
   (psci_smc_handler_aarch32_aarch64_equiv envA 0x84000042 1 2 3 0).2.2.2.2.2 (by decide)⟩
